import Mathlib

/-
  Verification of the Legion dependence-and-versioning engine declarations
  (src/runtime/legion/legion_types.h, src/runtime/legion_c_util.h,
  src/runtime/realm/instance.h) against the natural-language specification.
  Enumerations and conversion utilities are embedded directly from the
  headers; logic whose implementation is not part of the source sample is
  modelled from the specification and marked as such in its doc comment.
-/

namespace Legion

/-- Embeds `enum OpenState` from legion_types.h lines 198-204:
NOT_OPEN = 0, OPEN_READ_ONLY = 1, OPEN_READ_WRITE = 2,
OPEN_SINGLE_REDUCE = 3, OPEN_MULTI_REDUCE = 4. -/
inductive OpenState : Type
  | NOT_OPEN
  | OPEN_READ_ONLY
  | OPEN_READ_WRITE
  | OPEN_SINGLE_REDUCE
  | OPEN_MULTI_REDUCE
deriving DecidableEq, Repr, Fintype

/-- Numeric value of each `OpenState` enumerator as assigned in legion_types.h. -/
def OpenState.value : OpenState → Nat
  | .NOT_OPEN => 0
  | .OPEN_READ_ONLY => 1
  | .OPEN_READ_WRITE => 2
  | .OPEN_SINGLE_REDUCE => 3
  | .OPEN_MULTI_REDUCE => 4

/-- Kind of access an operation requests at a tree node. Modelled from the
spec: §4.4 distinguishes readers, writers and reduction operations (the
reduction carries its operator identifier). -/
inductive AccessKind : Type
  | read
  | write
  | reduce (redop : Nat)
deriving DecidableEq, Repr

/-- Modelled from the spec: the open-state transition of §4.4 for a single
field-mask slice of a tree node (the transition code itself,
`RegionTreeNode::open_logical_node` and friends, is not part of the source
sample; legion_types.h only declares the `OpenState` enumeration).
The spec bullets: first reader on a not-open slice opens it read-only;
additional readers merge; a writer flips read-only to read-write; writers
stay read-write; a reduction opens a single-reduce slice, and a second
same-operator reduction makes it multi-reduce. -/
def openTransition : OpenState → AccessKind → OpenState
  | .NOT_OPEN, .read => .OPEN_READ_ONLY
  | .NOT_OPEN, .write => .OPEN_READ_WRITE
  | .NOT_OPEN, .reduce _ => .OPEN_SINGLE_REDUCE
  | .OPEN_READ_ONLY, .read => .OPEN_READ_ONLY
  | .OPEN_READ_ONLY, .write => .OPEN_READ_WRITE
  | .OPEN_READ_ONLY, .reduce _ => .OPEN_READ_WRITE
  | .OPEN_READ_WRITE, _ => .OPEN_READ_WRITE
  | .OPEN_SINGLE_REDUCE, .reduce _ => .OPEN_MULTI_REDUCE
  | .OPEN_SINGLE_REDUCE, .read => .OPEN_READ_WRITE
  | .OPEN_SINGLE_REDUCE, .write => .OPEN_READ_WRITE
  | .OPEN_MULTI_REDUCE, .reduce _ => .OPEN_MULTI_REDUCE
  | .OPEN_MULTI_REDUCE, .read => .OPEN_READ_WRITE
  | .OPEN_MULTI_REDUCE, .write => .OPEN_READ_WRITE

/-- Modelled from the spec: a close operation flushes a slice's open state
back to `not-open` (§4.4 "a synthetic operation that flushes the subtree's
open state back to not-open"; data-model table "reset to not-open when a
close operation flushes it"). -/
def closeState : OpenState → OpenState := fun _ => .NOT_OPEN

/-- Embeds `enum VirtualChannelKind` from legion_types.h lines 427-440
(the sentinel MAX_NUM_VIRTUAL_CHANNELS = 11 is represented by
`maxNumVirtualChannels` below). -/
inductive VirtualChannelKind : Type
  | DEFAULT_VIRTUAL_CHANNEL
  | INDEX_AND_FIELD_VIRTUAL_CHANNEL
  | LOGICAL_TREE_VIRTUAL_CHANNEL
  | DISTRIBUTED_VIRTUAL_CHANNEL
  | MAPPER_VIRTUAL_CHANNEL
  | SEMANTIC_INFO_VIRTUAL_CHANNEL
  | LAYOUT_CONSTRAINT_VIRTUAL_CHANNEL
  | CONTEXT_VIRTUAL_CHANNEL
  | MANAGER_VIRTUAL_CHANNEL
  | VIEW_VIRTUAL_CHANNEL
  | VARIANT_VIRTUAL_CHANNEL
deriving DecidableEq, Repr, Fintype

/-- Numeric value of each `VirtualChannelKind` enumerator (legion_types.h
assigns 0 through 10 explicitly). -/
def VirtualChannelKind.value : VirtualChannelKind → Nat
  | .DEFAULT_VIRTUAL_CHANNEL => 0
  | .INDEX_AND_FIELD_VIRTUAL_CHANNEL => 1
  | .LOGICAL_TREE_VIRTUAL_CHANNEL => 2
  | .DISTRIBUTED_VIRTUAL_CHANNEL => 3
  | .MAPPER_VIRTUAL_CHANNEL => 4
  | .SEMANTIC_INFO_VIRTUAL_CHANNEL => 5
  | .LAYOUT_CONSTRAINT_VIRTUAL_CHANNEL => 6
  | .CONTEXT_VIRTUAL_CHANNEL => 7
  | .MANAGER_VIRTUAL_CHANNEL => 8
  | .VIEW_VIRTUAL_CHANNEL => 9
  | .VARIANT_VIRTUAL_CHANNEL => 10

/-- MAX_NUM_VIRTUAL_CHANNELS from legion_types.h line 439. -/
def maxNumVirtualChannels : Nat := 11

/-- Embeds `enum HLRTaskID` from legion_types.h lines 223-278; the sentinel
HLR_LAST_TASK_ID is represented by `HLR_LAST_TASK_ID` below as the number of
real enumerators. -/
inductive HLRTaskID : Type
  | HLR_SCHEDULER_ID
  | HLR_POST_END_ID
  | HLR_DEFERRED_MAPPING_TRIGGER_ID
  | HLR_DEFERRED_RESOLUTION_TRIGGER_ID
  | HLR_DEFERRED_EXECUTION_TRIGGER_ID
  | HLR_DEFERRED_COMMIT_TRIGGER_ID
  | HLR_DEFERRED_POST_MAPPED_ID
  | HLR_DEFERRED_EXECUTE_ID
  | HLR_DEFERRED_COMPLETE_ID
  | HLR_DEFERRED_COMMIT_ID
  | HLR_RECLAIM_LOCAL_FIELD_ID
  | HLR_DEFERRED_COLLECT_ID
  | HLR_TRIGGER_DEPENDENCE_ID
  | HLR_TRIGGER_OP_ID
  | HLR_TRIGGER_TASK_ID
  | HLR_DEFERRED_RECYCLE_ID
  | HLR_DEFERRED_SLICE_ID
  | HLR_MUST_INDIV_ID
  | HLR_MUST_INDEX_ID
  | HLR_MUST_MAP_ID
  | HLR_MUST_DIST_ID
  | HLR_MUST_LAUNCH_ID
  | HLR_DEFERRED_FUTURE_SET_ID
  | HLR_DEFERRED_FUTURE_MAP_SET_ID
  | HLR_RESOLVE_FUTURE_PRED_ID
  | HLR_MPI_RANK_ID
  | HLR_CONTRIBUTE_COLLECTIVE_ID
  | HLR_STATE_ANALYSIS_ID
  | HLR_MAPPER_TASK_ID
  | HLR_DISJOINTNESS_TASK_ID
  | HLR_PART_INDEPENDENCE_TASK_ID
  | HLR_SPACE_INDEPENDENCE_TASK_ID
  | HLR_PENDING_CHILD_TASK_ID
  | HLR_DECREMENT_PENDING_TASK_ID
  | HLR_SEND_VERSION_STATE_TASK_ID
  | HLR_ADD_TO_DEP_QUEUE_TASK_ID
  | HLR_WINDOW_WAIT_TASK_ID
  | HLR_ISSUE_FRAME_TASK_ID
  | HLR_CONTINUATION_TASK_ID
  | HLR_MAPPER_CONTINUATION_TASK_ID
  | HLR_TASK_IMPL_SEMANTIC_INFO_REQ_TASK_ID
  | HLR_INDEX_SPACE_SEMANTIC_INFO_REQ_TASK_ID
  | HLR_INDEX_PART_SEMANTIC_INFO_REQ_TASK_ID
  | HLR_FIELD_SPACE_SEMANTIC_INFO_REQ_TASK_ID
  | HLR_FIELD_SEMANTIC_INFO_REQ_TASK_ID
  | HLR_REGION_SEMANTIC_INFO_REQ_TASK_ID
  | HLR_PARTITION_SEMANTIC_INFO_REQ_TASK_ID
  | HLR_SELECT_TUNABLE_TASK_ID
  | HLR_DEFERRED_ENQUEUE_TASK_ID
  | HLR_MESSAGE_ID
  | HLR_SHUTDOWN_ATTEMPT_TASK_ID
  | HLR_SHUTDOWN_NOTIFICATION_TASK_ID
  | HLR_SHUTDOWN_RESPONSE_TASK_ID
deriving DecidableEq, Repr, Fintype

/-- All `HLRTaskID` enumerators in declaration order; a C enum assigns
consecutive values starting from 0, so an enumerator's value is its index in
this list. -/
def allHLRTaskIDs : List HLRTaskID :=
  [ .HLR_SCHEDULER_ID
  , .HLR_POST_END_ID
  , .HLR_DEFERRED_MAPPING_TRIGGER_ID
  , .HLR_DEFERRED_RESOLUTION_TRIGGER_ID
  , .HLR_DEFERRED_EXECUTION_TRIGGER_ID
  , .HLR_DEFERRED_COMMIT_TRIGGER_ID
  , .HLR_DEFERRED_POST_MAPPED_ID
  , .HLR_DEFERRED_EXECUTE_ID
  , .HLR_DEFERRED_COMPLETE_ID
  , .HLR_DEFERRED_COMMIT_ID
  , .HLR_RECLAIM_LOCAL_FIELD_ID
  , .HLR_DEFERRED_COLLECT_ID
  , .HLR_TRIGGER_DEPENDENCE_ID
  , .HLR_TRIGGER_OP_ID
  , .HLR_TRIGGER_TASK_ID
  , .HLR_DEFERRED_RECYCLE_ID
  , .HLR_DEFERRED_SLICE_ID
  , .HLR_MUST_INDIV_ID
  , .HLR_MUST_INDEX_ID
  , .HLR_MUST_MAP_ID
  , .HLR_MUST_DIST_ID
  , .HLR_MUST_LAUNCH_ID
  , .HLR_DEFERRED_FUTURE_SET_ID
  , .HLR_DEFERRED_FUTURE_MAP_SET_ID
  , .HLR_RESOLVE_FUTURE_PRED_ID
  , .HLR_MPI_RANK_ID
  , .HLR_CONTRIBUTE_COLLECTIVE_ID
  , .HLR_STATE_ANALYSIS_ID
  , .HLR_MAPPER_TASK_ID
  , .HLR_DISJOINTNESS_TASK_ID
  , .HLR_PART_INDEPENDENCE_TASK_ID
  , .HLR_SPACE_INDEPENDENCE_TASK_ID
  , .HLR_PENDING_CHILD_TASK_ID
  , .HLR_DECREMENT_PENDING_TASK_ID
  , .HLR_SEND_VERSION_STATE_TASK_ID
  , .HLR_ADD_TO_DEP_QUEUE_TASK_ID
  , .HLR_WINDOW_WAIT_TASK_ID
  , .HLR_ISSUE_FRAME_TASK_ID
  , .HLR_CONTINUATION_TASK_ID
  , .HLR_MAPPER_CONTINUATION_TASK_ID
  , .HLR_TASK_IMPL_SEMANTIC_INFO_REQ_TASK_ID
  , .HLR_INDEX_SPACE_SEMANTIC_INFO_REQ_TASK_ID
  , .HLR_INDEX_PART_SEMANTIC_INFO_REQ_TASK_ID
  , .HLR_FIELD_SPACE_SEMANTIC_INFO_REQ_TASK_ID
  , .HLR_FIELD_SEMANTIC_INFO_REQ_TASK_ID
  , .HLR_REGION_SEMANTIC_INFO_REQ_TASK_ID
  , .HLR_PARTITION_SEMANTIC_INFO_REQ_TASK_ID
  , .HLR_SELECT_TUNABLE_TASK_ID
  , .HLR_DEFERRED_ENQUEUE_TASK_ID
  , .HLR_MESSAGE_ID
  , .HLR_SHUTDOWN_ATTEMPT_TASK_ID
  , .HLR_SHUTDOWN_NOTIFICATION_TASK_ID
  , .HLR_SHUTDOWN_RESPONSE_TASK_ID ]

/-- Value of an `HLRTaskID` enumerator (its index in declaration order). -/
def HLRTaskID.value (t : HLRTaskID) : Nat := allHLRTaskIDs.indexOf t

/-- HLR_LAST_TASK_ID: the sentinel placed last in `enum HLRTaskID`, equal to
the number of real enumerators before it. -/
def HLR_LAST_TASK_ID : Nat := allHLRTaskIDs.length

/-- Embeds the HLR_TASK_DESCRIPTIONS name table from legion_types.h lines
282-337: an array of HLR_LAST_TASK_ID C string literals in order. -/
def hlrTaskDescriptions : List String :=
  [ "Scheduler"
  , "Post-Task Execution"
  , "Deferred Mapping Trigger"
  , "Deferred Resolution Trigger"
  , "Deferred Execution Trigger"
  , "Deferred Commit Trigger"
  , "Deferred Post Mapped"
  , "Deferred Execute"
  , "Deferred Complete"
  , "Deferred Commit"
  , "Reclaim Local Field"
  , "Garbage Collection"
  , "Logical Dependence Analysis"
  , "Operation Physical Dependence Analysis"
  , "Task Physical Dependence Analysis"
  , "Deferred Recycle"
  , "Deferred Slice"
  , "Must Individual Task Dependence Analysis"
  , "Must Index Task Dependence Analysis"
  , "Must Task Physical Dependence Analysis"
  , "Must Task Distribution"
  , "Must Task Launch"
  , "Deferred Future Set"
  , "Deferred Future Map Set"
  , "Resolve Future Predicate"
  , "Update MPI Rank Info"
  , "Contribute Collective"
  , "State Analaysis"
  , "Mapper Task"
  , "Disjointness Test"
  , "Partition Independence Test"
  , "Index Space Independence Test"
  , "Remove Pending Child"
  , "Decrement Pending Task"
  , "Send Version State"
  , "Add to Dependence Queue"
  , "Window Wait"
  , "Issue Frame"
  , "Legion Continuation"
  , "Mapper Continuation"
  , "Task Impl Semantic Request"
  , "Index Space Semantic Request"
  , "Index Partition Semantic Request"
  , "Field Space Semantic Request"
  , "Field Semantic Request"
  , "Region Semantic Request"
  , "Partition Semantic Request"
  , "Select Tunable"
  , "Deferred Task Enqueue"
  , "Remote Message"
  , "Shutdown Attempt"
  , "Shutdown Notification"
  , "Shutdown Response" ]

set_option maxHeartbeats 1600000 in
/-- Embeds `enum MessageKind` from legion_types.h lines 442-541; the
sentinel LAST_SEND_KIND is represented by `LAST_SEND_KIND` below as the
number of real enumerators. -/
inductive MessageKind : Type
  | TASK_MESSAGE
  | STEAL_MESSAGE
  | ADVERTISEMENT_MESSAGE
  | SEND_INDEX_SPACE_NODE
  | SEND_INDEX_SPACE_REQUEST
  | SEND_INDEX_SPACE_RETURN
  | SEND_INDEX_SPACE_CHILD_REQUEST
  | SEND_INDEX_PARTITION_NODE
  | SEND_INDEX_PARTITION_REQUEST
  | SEND_INDEX_PARTITION_RETURN
  | SEND_INDEX_PARTITION_CHILD_REQUEST
  | SEND_FIELD_SPACE_NODE
  | SEND_FIELD_SPACE_REQUEST
  | SEND_FIELD_SPACE_RETURN
  | SEND_FIELD_ALLOC_REQUEST
  | SEND_FIELD_ALLOC_NOTIFICATION
  | SEND_FIELD_SPACE_TOP_ALLOC
  | SEND_FIELD_FREE
  | SEND_TOP_LEVEL_REGION_REQUEST
  | SEND_TOP_LEVEL_REGION_RETURN
  | SEND_LOGICAL_REGION_NODE
  | INDEX_SPACE_DESTRUCTION_MESSAGE
  | INDEX_PARTITION_DESTRUCTION_MESSAGE
  | FIELD_SPACE_DESTRUCTION_MESSAGE
  | LOGICAL_REGION_DESTRUCTION_MESSAGE
  | LOGICAL_PARTITION_DESTRUCTION_MESSAGE
  | INDIVIDUAL_REMOTE_MAPPED
  | INDIVIDUAL_REMOTE_COMPLETE
  | INDIVIDUAL_REMOTE_COMMIT
  | SLICE_REMOTE_MAPPED
  | SLICE_REMOTE_COMPLETE
  | SLICE_REMOTE_COMMIT
  | DISTRIBUTED_REMOTE_REGISTRATION
  | DISTRIBUTED_VALID_UPDATE
  | DISTRIBUTED_GC_UPDATE
  | DISTRIBUTED_RESOURCE_UPDATE
  | DISTRIBUTED_CREATE_ADD
  | DISTRIBUTED_CREATE_REMOVE
  | SEND_ATOMIC_RESERVATION_REQUEST
  | SEND_ATOMIC_RESERVATION_RESPONSE
  | SEND_MATERIALIZED_VIEW
  | SEND_MATERIALIZED_UPDATE
  | SEND_COMPOSITE_VIEW
  | SEND_FILL_VIEW
  | SEND_REDUCTION_VIEW
  | SEND_REDUCTION_UPDATE
  | SEND_INSTANCE_MANAGER
  | SEND_REDUCTION_MANAGER
  | SEND_CREATE_TOP_VIEW_REQUEST
  | SEND_CREATE_TOP_VIEW_RESPONSE
  | SEND_SUBVIEW_DID_REQUEST
  | SEND_SUBVIEW_DID_RESPONSE
  | SEND_VIEW_REQUEST
  | SEND_MANAGER_REQUEST
  | SEND_FUTURE_RESULT
  | SEND_FUTURE_SUBSCRIPTION
  | SEND_MAPPER_MESSAGE
  | SEND_MAPPER_BROADCAST
  | SEND_TASK_IMPL_SEMANTIC_REQ
  | SEND_INDEX_SPACE_SEMANTIC_REQ
  | SEND_INDEX_PARTITION_SEMANTIC_REQ
  | SEND_FIELD_SPACE_SEMANTIC_REQ
  | SEND_FIELD_SEMANTIC_REQ
  | SEND_LOGICAL_REGION_SEMANTIC_REQ
  | SEND_LOGICAL_PARTITION_SEMANTIC_REQ
  | SEND_TASK_IMPL_SEMANTIC_INFO
  | SEND_INDEX_SPACE_SEMANTIC_INFO
  | SEND_INDEX_PARTITION_SEMANTIC_INFO
  | SEND_FIELD_SPACE_SEMANTIC_INFO
  | SEND_FIELD_SEMANTIC_INFO
  | SEND_LOGICAL_REGION_SEMANTIC_INFO
  | SEND_LOGICAL_PARTITION_SEMANTIC_INFO
  | SEND_REMOTE_CONTEXT_REQUEST
  | SEND_REMOTE_CONTEXT_RESPONSE
  | SEND_REMOTE_CONTEXT_FREE
  | SEND_REMOTE_CONVERT_VIRTUAL
  | SEND_VERSION_STATE_PATH
  | SEND_VERSION_STATE_INIT
  | SEND_VERSION_STATE_REQUEST
  | SEND_VERSION_STATE_RESPONSE
  | SEND_INSTANCE_REQUEST
  | SEND_INSTANCE_RESPONSE
  | SEND_GC_PRIORITY_UPDATE
  | SEND_NEVER_GC_RESPONSE
  | SEND_ACQUIRE_REQUEST
  | SEND_ACQUIRE_RESPONSE
  | SEND_BACK_LOGICAL_STATE
  | SEND_VARIANT_REQUEST
  | SEND_VARIANT_RESPONSE
  | SEND_CONSTRAINT_REQUEST
  | SEND_CONSTRAINT_RESPONSE
  | SEND_CONSTRAINT_RELEASE
  | SEND_CONSTRAINT_REMOVAL
  | SEND_TOP_LEVEL_TASK_REQUEST
  | SEND_TOP_LEVEL_TASK_COMPLETE
  | SEND_SHUTDOWN_NOTIFICATION
  | SEND_SHUTDOWN_RESPONSE
/-- Value of each `MessageKind` enumerator: C assigns consecutive values
starting from 0 in declaration order. -/
def MessageKind.value : MessageKind → Nat
  | .TASK_MESSAGE => 0
  | .STEAL_MESSAGE => 1
  | .ADVERTISEMENT_MESSAGE => 2
  | .SEND_INDEX_SPACE_NODE => 3
  | .SEND_INDEX_SPACE_REQUEST => 4
  | .SEND_INDEX_SPACE_RETURN => 5
  | .SEND_INDEX_SPACE_CHILD_REQUEST => 6
  | .SEND_INDEX_PARTITION_NODE => 7
  | .SEND_INDEX_PARTITION_REQUEST => 8
  | .SEND_INDEX_PARTITION_RETURN => 9
  | .SEND_INDEX_PARTITION_CHILD_REQUEST => 10
  | .SEND_FIELD_SPACE_NODE => 11
  | .SEND_FIELD_SPACE_REQUEST => 12
  | .SEND_FIELD_SPACE_RETURN => 13
  | .SEND_FIELD_ALLOC_REQUEST => 14
  | .SEND_FIELD_ALLOC_NOTIFICATION => 15
  | .SEND_FIELD_SPACE_TOP_ALLOC => 16
  | .SEND_FIELD_FREE => 17
  | .SEND_TOP_LEVEL_REGION_REQUEST => 18
  | .SEND_TOP_LEVEL_REGION_RETURN => 19
  | .SEND_LOGICAL_REGION_NODE => 20
  | .INDEX_SPACE_DESTRUCTION_MESSAGE => 21
  | .INDEX_PARTITION_DESTRUCTION_MESSAGE => 22
  | .FIELD_SPACE_DESTRUCTION_MESSAGE => 23
  | .LOGICAL_REGION_DESTRUCTION_MESSAGE => 24
  | .LOGICAL_PARTITION_DESTRUCTION_MESSAGE => 25
  | .INDIVIDUAL_REMOTE_MAPPED => 26
  | .INDIVIDUAL_REMOTE_COMPLETE => 27
  | .INDIVIDUAL_REMOTE_COMMIT => 28
  | .SLICE_REMOTE_MAPPED => 29
  | .SLICE_REMOTE_COMPLETE => 30
  | .SLICE_REMOTE_COMMIT => 31
  | .DISTRIBUTED_REMOTE_REGISTRATION => 32
  | .DISTRIBUTED_VALID_UPDATE => 33
  | .DISTRIBUTED_GC_UPDATE => 34
  | .DISTRIBUTED_RESOURCE_UPDATE => 35
  | .DISTRIBUTED_CREATE_ADD => 36
  | .DISTRIBUTED_CREATE_REMOVE => 37
  | .SEND_ATOMIC_RESERVATION_REQUEST => 38
  | .SEND_ATOMIC_RESERVATION_RESPONSE => 39
  | .SEND_MATERIALIZED_VIEW => 40
  | .SEND_MATERIALIZED_UPDATE => 41
  | .SEND_COMPOSITE_VIEW => 42
  | .SEND_FILL_VIEW => 43
  | .SEND_REDUCTION_VIEW => 44
  | .SEND_REDUCTION_UPDATE => 45
  | .SEND_INSTANCE_MANAGER => 46
  | .SEND_REDUCTION_MANAGER => 47
  | .SEND_CREATE_TOP_VIEW_REQUEST => 48
  | .SEND_CREATE_TOP_VIEW_RESPONSE => 49
  | .SEND_SUBVIEW_DID_REQUEST => 50
  | .SEND_SUBVIEW_DID_RESPONSE => 51
  | .SEND_VIEW_REQUEST => 52
  | .SEND_MANAGER_REQUEST => 53
  | .SEND_FUTURE_RESULT => 54
  | .SEND_FUTURE_SUBSCRIPTION => 55
  | .SEND_MAPPER_MESSAGE => 56
  | .SEND_MAPPER_BROADCAST => 57
  | .SEND_TASK_IMPL_SEMANTIC_REQ => 58
  | .SEND_INDEX_SPACE_SEMANTIC_REQ => 59
  | .SEND_INDEX_PARTITION_SEMANTIC_REQ => 60
  | .SEND_FIELD_SPACE_SEMANTIC_REQ => 61
  | .SEND_FIELD_SEMANTIC_REQ => 62
  | .SEND_LOGICAL_REGION_SEMANTIC_REQ => 63
  | .SEND_LOGICAL_PARTITION_SEMANTIC_REQ => 64
  | .SEND_TASK_IMPL_SEMANTIC_INFO => 65
  | .SEND_INDEX_SPACE_SEMANTIC_INFO => 66
  | .SEND_INDEX_PARTITION_SEMANTIC_INFO => 67
  | .SEND_FIELD_SPACE_SEMANTIC_INFO => 68
  | .SEND_FIELD_SEMANTIC_INFO => 69
  | .SEND_LOGICAL_REGION_SEMANTIC_INFO => 70
  | .SEND_LOGICAL_PARTITION_SEMANTIC_INFO => 71
  | .SEND_REMOTE_CONTEXT_REQUEST => 72
  | .SEND_REMOTE_CONTEXT_RESPONSE => 73
  | .SEND_REMOTE_CONTEXT_FREE => 74
  | .SEND_REMOTE_CONVERT_VIRTUAL => 75
  | .SEND_VERSION_STATE_PATH => 76
  | .SEND_VERSION_STATE_INIT => 77
  | .SEND_VERSION_STATE_REQUEST => 78
  | .SEND_VERSION_STATE_RESPONSE => 79
  | .SEND_INSTANCE_REQUEST => 80
  | .SEND_INSTANCE_RESPONSE => 81
  | .SEND_GC_PRIORITY_UPDATE => 82
  | .SEND_NEVER_GC_RESPONSE => 83
  | .SEND_ACQUIRE_REQUEST => 84
  | .SEND_ACQUIRE_RESPONSE => 85
  | .SEND_BACK_LOGICAL_STATE => 86
  | .SEND_VARIANT_REQUEST => 87
  | .SEND_VARIANT_RESPONSE => 88
  | .SEND_CONSTRAINT_REQUEST => 89
  | .SEND_CONSTRAINT_RESPONSE => 90
  | .SEND_CONSTRAINT_RELEASE => 91
  | .SEND_CONSTRAINT_REMOVAL => 92
  | .SEND_TOP_LEVEL_TASK_REQUEST => 93
  | .SEND_TOP_LEVEL_TASK_COMPLETE => 94
  | .SEND_SHUTDOWN_NOTIFICATION => 95
  | .SEND_SHUTDOWN_RESPONSE => 96

/-- LAST_SEND_KIND: the sentinel placed last in `enum MessageKind`, one
greater than the value of SEND_SHUTDOWN_RESPONSE. -/
def LAST_SEND_KIND : Nat := 97

/-- `IndexSpace` handle (legion.h, used by legion_c_util.h wrap/unwrap):
carries a stable id. -/
structure IndexSpace where
  id : Nat
deriving DecidableEq, Repr

/-- `FieldSpace` handle: carries a stable id. -/
structure FieldSpace where
  id : Nat
deriving DecidableEq, Repr

/-- `LogicalRegion` tree-node identity: (tree ID, index space, field space),
the triple copied field by field by `CObjectWrapper::wrap` in
legion_c_util.h lines 129-146. -/
structure LogicalRegion where
  tree_id : Nat
  index_space : IndexSpace
  field_space : FieldSpace
deriving DecidableEq, Repr

/-- The C struct `legion_index_space_t`. -/
structure legion_index_space_t where
  id : Nat
deriving DecidableEq, Repr

/-- The C struct `legion_field_space_t`. -/
structure legion_field_space_t where
  id : Nat
deriving DecidableEq, Repr

/-- The C struct `legion_logical_region_t`. -/
structure legion_logical_region_t where
  tree_id : Nat
  index_space : legion_index_space_t
  field_space : legion_field_space_t
deriving DecidableEq, Repr

/-- The C++ `ptr_t` value type (a single integer value field). -/
structure ptr_t where
  value : Int
deriving DecidableEq, Repr

/-- The C struct `legion_ptr_t` (a single integer value field). -/
structure legion_ptr_t where
  value : Int
deriving DecidableEq, Repr

/-- An opaque C handle produced by the NEW_OPAQUE_WRAPPER macro in
legion_c_util.h lines 33-63: a struct holding a single `void *impl` member.
The pointer is modelled by its address. -/
structure legion_opaque_handle_t where
  impl : Nat
deriving DecidableEq, Repr

namespace CObjectWrapper

/-- `CObjectWrapper::wrap(ptr_t)` from legion_c_util.h lines 65-71:
copies the value field. -/
def wrap_ptr (ptr : ptr_t) : legion_ptr_t := { value := ptr.value }

/-- `CObjectWrapper::unwrap(legion_ptr_t)` from legion_c_util.h lines
73-79: copies the value field. -/
def unwrap_ptr (ptr_c : legion_ptr_t) : ptr_t := { value := ptr_c.value }

/-- `CObjectWrapper::wrap(IndexSpace)` from legion_c_util.h lines 81-87. -/
def wrap_index_space (is : IndexSpace) : legion_index_space_t :=
  { id := is.id }

/-- `CObjectWrapper::unwrap(legion_index_space_t)` from legion_c_util.h
lines 89-95. -/
def unwrap_index_space (is_c : legion_index_space_t) : IndexSpace :=
  { id := is_c.id }

/-- `CObjectWrapper::wrap(FieldSpace)` from legion_c_util.h lines 114-120. -/
def wrap_field_space (fs : FieldSpace) : legion_field_space_t :=
  { id := fs.id }

/-- `CObjectWrapper::unwrap(legion_field_space_t)` from legion_c_util.h
lines 122-127. -/
def unwrap_field_space (fs_c : legion_field_space_t) : FieldSpace :=
  { id := fs_c.id }

/-- `CObjectWrapper::wrap(LogicalRegion)` from legion_c_util.h lines
129-137: copies tree_id and wraps the index-space and field-space handles. -/
def wrap_logical_region (r : LogicalRegion) : legion_logical_region_t :=
  { tree_id := r.tree_id
  , index_space := wrap_index_space r.index_space
  , field_space := wrap_field_space r.field_space }

/-- `CObjectWrapper::unwrap(legion_logical_region_t)` from legion_c_util.h
lines 139-146: rebuilds the LogicalRegion from tree_id and the unwrapped
handles. -/
def unwrap_logical_region (r_c : legion_logical_region_t) : LogicalRegion :=
  { tree_id := r_c.tree_id
  , index_space := unwrap_index_space r_c.index_space
  , field_space := unwrap_field_space r_c.field_space }

/-- The `wrap` generated by NEW_OPAQUE_WRAPPER (legion_c_util.h lines
33-37): stores the pointer, cast to `void *`, in the handle's impl member.
The cast does not change the address. -/
def wrap_handle (t : Nat) : legion_opaque_handle_t := { impl := t }

/-- The `unwrap` generated by NEW_OPAQUE_WRAPPER (legion_c_util.h lines
42-44): casts the impl member back to the original pointer type. -/
def unwrap_handle (t_c : legion_opaque_handle_t) : Nat := t_c.impl

end CObjectWrapper

/-- Number of 64-bit words in a FieldMask: legion_types.h instantiates
`BitMask` with word type uint64_t (LEGION_FIELD_MASK_FIELD_TYPE, lines
988-991) over MAX_FIELDS bits. Modelled from the spec: MAX_FIELDS is a
compile-time capacity from legion_config.h, which is not part of the source
sample; the default capacity of 512 fields gives 8 words. -/
def FM_WORDS : Nat := 8

/-- A FieldMask: the fixed-capacity bit vector of legion_types.h, stored as
its array of 64-bit words. -/
structure FieldMask where
  words : List Nat
deriving DecidableEq, Repr

/-- Well-formedness of a FieldMask: exactly FM_WORDS words, each below
2^64 (the uint64_t word type from legion_types.h line 988). -/
def FieldMask.wf (m : FieldMask) : Prop :=
  m.words.length = FM_WORDS ∧ ∀ w ∈ m.words, w < 2 ^ 64

instance (m : FieldMask) : Decidable m.wf := by
  unfold FieldMask.wf; infer_instance

/-- Modelled from the spec: serializing a FieldMask writes its words to the
wire in order (the `Serializer` class of legion_utilities.h is not part of
the source sample; §6 gives the wire layout "a field-mask bit vector"). -/
def serializeFieldMask (m : FieldMask) : List Nat := m.words

/-- Modelled from the spec: deserializing a FieldMask reads FM_WORDS 64-bit
words back from the wire, failing on a malformed record. -/
def deserializeFieldMask (ws : List Nat) : Option FieldMask :=
  if ws.length = FM_WORDS ∧ ∀ w ∈ ws, w < 2 ^ 64 then
    some { words := ws }
  else
    none

/-- Modelled from the spec: the VersionState wire record of §6, "a stable
wire layout of (tree/field/version identifiers as fixed-width integers, a
field-mask bit vector, a variable-length payload)" (the serialization code
is not part of the source sample). -/
structure VersionStateWire where
  tree_id : Nat
  node_id : Nat
  version : Nat
  mask : FieldMask
  payload : List Nat
deriving DecidableEq, Repr

/-- Well-formedness of a VersionState wire record: fixed-width (64-bit)
identifiers, a well-formed field mask, byte-sized payload entries. -/
def VersionStateWire.wf (r : VersionStateWire) : Prop :=
  r.tree_id < 2 ^ 64 ∧ r.node_id < 2 ^ 64 ∧ r.version < 2 ^ 64 ∧
    r.mask.wf ∧ ∀ b ∈ r.payload, b < 2 ^ 8

instance (r : VersionStateWire) : Decidable r.wf := by
  unfold VersionStateWire.wf; infer_instance

/-- Modelled from the spec: serialize a VersionState wire record as the
fixed-width identifiers, then the field-mask words, then the payload length
and the payload bytes. -/
def serializeVersionState (r : VersionStateWire) : List Nat :=
  r.tree_id :: r.node_id :: r.version :: (serializeFieldMask r.mask ++
    (r.payload.length :: r.payload))

/-- Modelled from the spec: parse a VersionState wire record back from the
wire, failing on a malformed record. -/
def deserializeVersionState (ws : List Nat) : Option VersionStateWire :=
  match ws with
  | t :: n :: v :: rest =>
    if t < 2 ^ 64 ∧ n < 2 ^ 64 ∧ v < 2 ^ 64 then
      match deserializeFieldMask (rest.take FM_WORDS) with
      | some m =>
        match rest.drop FM_WORDS with
        | len :: tail =>
          if len = tail.length ∧ ∀ b ∈ tail, b < 2 ^ 8 then
            some { tree_id := t, node_id := n, version := v,
                   mask := m, payload := tail }
          else none
        | [] => none
      | none => none
    else none
  | _ => none

/-- Privilege mode of a region requirement. Modelled from the spec: §4.4
and the glossary distinguish read-only, read-write, write-discard and
reduction privileges (legion_config.h, which carries the C enumeration, is
not part of the source sample). -/
inductive Privilege : Type
  | NO_ACCESS
  | READ_ONLY
  | READ_WRITE
  | WRITE_DISCARD
  | REDUCE (redop : Nat)
deriving DecidableEq, Repr

/-- Coherence property of a region requirement. Modelled from the spec:
the glossary lists exclusive, atomic, simultaneous and relaxed coherence
(legion_config.h is not part of the source sample). -/
inductive Coherence : Type
  | EXCLUSIVE
  | ATOMIC
  | SIMULTANEOUS
  | RELAXED
deriving DecidableEq, Repr

/-- A `LogicalUser`, per the data-model table of the spec: a recorded
access (privilege mode, coherence property, field mask, operation identity)
attached to a tree node during dependence analysis (the struct itself lives
in legion_utilities.h, which is not part of the source sample; legion_types.h
line 780 declares it). The field mask is an integer bit vector. -/
structure LogicalUser where
  op : Nat
  privilege : Privilege
  coherence : Coherence
  mask : Nat
deriving DecidableEq, Repr

/-- Whether a privilege is a pure read. -/
def Privilege.isReadOnly : Privilege → Bool
  | .READ_ONLY => true
  | _ => false

/-- Whether two privileges are reductions with the same operator. -/
def sameReduction : Privilege → Privilege → Bool
  | .REDUCE a, .REDUCE b => a == b
  | _, _ => false

/-- Modelled from the spec: whether a later operation must record a
dependence on an earlier user once their field masks overlap (§4.4): two
readers never depend on each other; same-operator reducers never depend on
each other; `simultaneous`/`relaxed` coherence on both sides downgrades a
would-be dependence to a non-blocking notification; every other overlapping
combination is a dependence. -/
def dependsOn (prev next : LogicalUser) : Bool :=
  if prev.privilege.isReadOnly && next.privilege.isReadOnly then false
  else if sameReduction prev.privilege next.privilege then false
  else if (prev.coherence == .SIMULTANEOUS || prev.coherence == .RELAXED) &&
          (next.coherence == .SIMULTANEOUS || next.coherence == .RELAXED) then
    false
  else true

/-- A dependence edge recorded by the analysis: the prior user it points to
and the field subset (bit vector) the dependence covers. -/
structure DependenceEdge where
  prev : LogicalUser
  fields : Nat
deriving DecidableEq, Repr

/-- Modelled from the spec: registration of a new user against the prior
users of the same tree node (§4.4; the traversal code of region_tree.cc is
not part of the source sample). For each prior user the overlap of the two
field masks is computed; a prior user with no overlapping fields is skipped
entirely, and a dependence, when the privilege/coherence combination
requires one, is recorded for exactly the overlapping field subset
(§4.4 tie-break rule: "dependence is registered per-overlapping-subfield,
not for the whole mask"). -/
def recordDependences (prior : List LogicalUser) (u : LogicalUser) :
    List DependenceEdge :=
  prior.filterMap fun p =>
    let overlap := Nat.land p.mask u.mask
    if overlap = 0 then none
    else if dependsOn p u then some { prev := p, fields := overlap }
    else none

/-- An operation applied to the version state: which node it touches, the
field mask it touches there, and whether it writes. Modelled from the spec
(§4.5; the VersionState implementation of region_tree.cc is not part of the
source sample). -/
structure VersionOp where
  node : Nat
  mask : Nat
  write : Bool
deriving DecidableEq, Repr

/-- The version map: for every (node, field) pair the current version
number. Modelled from the spec: §4.5 keeps "per region-tree node and per
field subset, the current version number". -/
def VersionMap : Type := Nat → Nat → Nat

/-- Modelled from the spec: "each write bumps the version number for the
written field subset at that node" (§4.5); reads leave every version
unchanged. -/
def applyVersionOp (st : VersionMap) (o : VersionOp) : VersionMap :=
  fun n f =>
    if o.write ∧ n = o.node ∧ Nat.testBit o.mask f then st n f + 1
    else st n f

/-- Run a sequence of operations against the version map. -/
def runVersionOps (st : VersionMap) : List VersionOp → VersionMap
  | [] => st
  | o :: rest => runVersionOps (applyVersionOp st o) rest

/-- The version numbers recorded for (node n, field f) at each write that
touches field f of node n, in operation order. -/
def recordedWriteVersions (st : VersionMap) (ops : List VersionOp)
    (n f : Nat) : List Nat :=
  match ops with
  | [] => []
  | o :: rest =>
    let st' := applyVersionOp st o
    if o.write ∧ n = o.node ∧ Nat.testBit o.mask f then
      st' n f :: recordedWriteVersions st' rest n f
    else
      recordedWriteVersions st' rest n f

/-- State of one `DistributedCollectable` at its owner node, together with
the messages in flight that name its distributed ID. Modelled from the spec
(§4.2; runtime.h/garbage_collection.cc are not part of the source sample,
legion_types.h line 749 declares the class): two independent reference
counts, the number of pending messages naming the ID, whether both counts
were zero at the previous garbage-collection epoch boundary, and whether
the owner has destroyed the object. -/
structure DCState where
  validRefs : Nat
  resourceRefs : Nat
  pending : Nat
  zeroPrevEpoch : Bool
  deleted : Bool
deriving DecidableEq, Repr

/-- Modelled from the spec: the owner-side transitions of the
DistributedCollectable protocol (§4.2). A message that names the
distributed ID holds a resource reference from send until delivery, so a
plain `removeResource` can never release a reference held on behalf of an
in-flight message. At an epoch boundary the owner snapshots both counts and
destroys the object only if they were also both zero at the previous
boundary ("only deletes objects whose counts were zero in two consecutive
epochs"). A reference-count update that targets an already-destroyed object
is logged and dropped (§4.2 failure semantics). -/
inductive DCStep : DCState → DCState → Prop
  | addValid (s : DCState) (h : s.deleted = false) :
      DCStep s { s with validRefs := s.validRefs + 1 }
  | removeValid (s : DCState) (n : Nat) (h : s.deleted = false)
      (hn : s.validRefs = n + 1) :
      DCStep s { s with validRefs := n }
  | addResource (s : DCState) (h : s.deleted = false) :
      DCStep s { s with resourceRefs := s.resourceRefs + 1 }
  | removeResource (s : DCState) (n : Nat) (h : s.deleted = false)
      (hn : s.resourceRefs = n + 1) (hp : s.pending ≤ n) :
      DCStep s { s with resourceRefs := n }
  | sendMessage (s : DCState) (h : s.deleted = false) :
      DCStep s { s with pending := s.pending + 1,
                        resourceRefs := s.resourceRefs + 1 }
  | deliverMessage (s : DCState) (p n : Nat)
      (hp : s.pending = p + 1) (hn : s.resourceRefs = n + 1) :
      DCStep s { s with pending := p, resourceRefs := n }
  | epochBoundary (s : DCState) (h : s.deleted = false) :
      DCStep s { s with
        zeroPrevEpoch := s.validRefs == 0 && s.resourceRefs == 0,
        deleted := s.zeroPrevEpoch && (s.validRefs == 0 && s.resourceRefs == 0) }
  | droppedUpdate (s : DCState) (h : s.deleted = true) :
      DCStep s s

/-- A freshly created DistributedCollectable: no message in flight yet, no
previous epoch snapshot, not destroyed (§4.2: created on first remote
reference). -/
def DCInit (s : DCState) : Prop :=
  s.pending = 0 ∧ s.zeroPrevEpoch = false ∧ s.deleted = false

/-- States the DistributedCollectable protocol can reach from creation. -/
inductive DCReachable : DCState → Prop
  | init (s : DCState) (h : DCInit s) : DCReachable s
  | step (s s' : DCState) (hr : DCReachable s) (hs : DCStep s s') :
      DCReachable s'

/-- Ownership record of one (node, field-mask, version) of versioned state.
Modelled from the spec: "ownership can move at most once per version"
(§4.5), so the record is the original owner plus the optional single move. -/
structure VersionOwnership where
  firstOwner : Nat
  movedTo : Option Nat
deriving DecidableEq, Repr

/-- The address space currently holding the authoritative copy. -/
def VersionOwnership.currentOwner (v : VersionOwnership) : Nat :=
  v.movedTo.getD v.firstOwner

/-- Reply to a versioned-state request. Modelled from the spec: "the remote
node replies with either the serialized state or a redirect if ownership
has since moved" (§4.5); a StaleOwnershipRedirect is a protocol signal, not
an error (§7). -/
inductive VersionReply : Type
  | stateData (owner : Nat)
  | staleOwnershipRedirect (newOwner : Nat)
deriving DecidableEq, Repr

/-- Modelled from the spec: how a node answers a versioned-state request
addressed to it (§4.5). -/
def respondVersionRequest (v : VersionOwnership) (asked : Nat) :
    VersionReply :=
  if asked = v.currentOwner then .stateData asked
  else .staleOwnershipRedirect v.currentOwner

/-- Modelled from the spec: the requester sends to the node it believes
owns the state and transparently follows a StaleOwnershipRedirect (§7).
Returns the number of redirects followed and the node that finally served
the state. -/
def resolveVersionRequest (v : VersionOwnership) (believedOwner : Nat) :
    Nat × Nat :=
  match respondVersionRequest v believedOwner with
  | .stateData owner => (0, owner)
  | .staleOwnershipRedirect target =>
    match respondVersionRequest v target with
    | .stateData owner => (1, owner)
    | .staleOwnershipRedirect target2 => (2, target2)

/-- The cross-node concerns the spec multiplexes onto distinct virtual
channels (§4.6: "structural updates, version traffic, view/instance
traffic, mapper traffic, shutdown"). -/
inductive ChannelConcern : Type
  | structuralUpdates
  | versionTraffic
  | viewInstanceTraffic
  | mapperTraffic
  | shutdown
deriving DecidableEq, Repr, Fintype

/-- Modelled from the spec: the assignment of each concern to its own
virtual channel ("one per concern", §4.6). The message-kind-to-channel
assignment code of runtime.cc is not part of the source sample; the
channels themselves are the `VirtualChannelKind` enumerators of
legion_types.h, and the listed concerns are mapped to pairwise distinct
enumerators. -/
def channelOfConcern : ChannelConcern → VirtualChannelKind
  | .structuralUpdates => .LOGICAL_TREE_VIRTUAL_CHANNEL
  | .versionTraffic => .DISTRIBUTED_VIRTUAL_CHANNEL
  | .viewInstanceTraffic => .VIEW_VIRTUAL_CHANNEL
  | .mapperTraffic => .MAPPER_VIRTUAL_CHANNEL
  | .shutdown => .DEFAULT_VIRTUAL_CHANNEL

/-- A channel endpoint: the virtual channel and the ordered pair of address
spaces (sender, receiver). -/
abbrev ChannelKey : Type := VirtualChannelKind × Nat × Nat

/-- State of the message manager's channels: for every (channel, sender,
receiver) key the log of messages sent so far, the queue still in flight,
and the log of messages delivered so far. Modelled from the spec (§4.6;
the MessageManager implementation of runtime.cc is not part of the source
sample, legion_types.h line 667 declares the class). -/
structure MMState where
  sentLog : ChannelKey → List Nat
  queue : ChannelKey → List Nat
  deliveredLog : ChannelKey → List Nat

/-- An event at the messaging layer: a send of a message on a channel
between an ordered pair of address spaces, or the delivery of the oldest
in-flight message of such a channel. -/
inductive MMEvent : Type
  | send (c : VirtualChannelKind) (src dst : Nat) (m : Nat)
  | deliver (c : VirtualChannelKind) (src dst : Nat)

/-- Modelled from the spec: sends enqueue onto the per-(channel, pair)
stream; the delivery layer hands over messages of one stream strictly in
order, so a delivery removes the oldest in-flight message (§4.6 contract:
"messages on the same channel between the same ordered pair of address
spaces are delivered in send order"; messages on different channels are
unrelated). -/
def mmStep (s : MMState) : MMEvent → MMState
  | .send c src dst m =>
    let k : ChannelKey := (c, src, dst)
    { sentLog := fun k' => if k' = k then s.sentLog k' ++ [m] else s.sentLog k'
    , queue := fun k' => if k' = k then s.queue k' ++ [m] else s.queue k'
    , deliveredLog := s.deliveredLog }
  | .deliver c src dst =>
    let k : ChannelKey := (c, src, dst)
    match s.queue k with
    | [] => s
    | m :: rest =>
      { sentLog := s.sentLog
      , queue := fun k' => if k' = k then rest else s.queue k'
      , deliveredLog := fun k' =>
          if k' = k then s.deliveredLog k' ++ [m] else s.deliveredLog k' }

/-- The message manager with no traffic yet. -/
def mmInit : MMState :=
  { sentLog := fun _ => [], queue := fun _ => [], deliveredLog := fun _ => [] }

/-- Run a sequence of messaging events from a starting state. -/
def mmRun (s : MMState) : List MMEvent → MMState
  | [] => s
  | e :: rest => mmRun (mmStep s e) rest

/-- The ordering invariant of the messaging layer: on every (channel,
sender, receiver) stream, the messages sent so far are exactly the messages
delivered so far followed by the messages still in flight, in order. -/
def mmInv (s : MMState) : Prop :=
  ∀ k : ChannelKey, s.sentLog k = s.deliveredLog k ++ s.queue k

/-- C3: for every tree node and field-mask slice the logical open state is
exactly one of the five values not-open, open-read-only, open-read-write,
open-single-reduce, open-multi-reduce; the first reader on a field set with
no open writer moves not-open to open-read-only, and a close operation
resets the state to not-open. -/
theorem C3_open_state_machine :
    Fintype.card OpenState = 5 ∧
    (∀ s : OpenState,
      s = .NOT_OPEN ∨ s = .OPEN_READ_ONLY ∨ s = .OPEN_READ_WRITE ∨
        s = .OPEN_SINGLE_REDUCE ∨ s = .OPEN_MULTI_REDUCE) ∧
    openTransition .NOT_OPEN .read = .OPEN_READ_ONLY ∧
    (∀ s : OpenState, closeState s = .NOT_OPEN) :=
  ⟨by decide, by decide, rfl, fun _ => rfl⟩

/-- C5: a versioned-state requester follows a StaleOwnershipRedirect at
most once; because ownership of a version can move at most once, the
redirect chain never cycles and resolution terminates, at the current
owner. -/
theorem C5_redirect_followed_at_most_once :
    ∀ (v : VersionOwnership) (believedOwner : Nat),
      (resolveVersionRequest v believedOwner).1 ≤ 1 ∧
      (resolveVersionRequest v believedOwner).2 = v.currentOwner := by
  intro v believedOwner
  by_cases h : believedOwner = v.currentOwner <;>
    simp [resolveVersionRequest, respondVersionRequest, h]

/-- C9: the message-kind enumeration is fixed (97 kinds, every kind's value
below LAST_SEND_KIND) and contains a pairwise-distinct kind for each listed
concern: structural node announce/request/return, field-alloc notification,
version state path/init/request/response, instance request/response, GC
priority update, and shutdown notification/response. -/
theorem C9_message_kind_enumeration :
    LAST_SEND_KIND = 97 ∧
    (∀ k : MessageKind, k.value < LAST_SEND_KIND) ∧
    ([ MessageKind.SEND_INDEX_SPACE_NODE.value
     , MessageKind.SEND_INDEX_SPACE_REQUEST.value
     , MessageKind.SEND_INDEX_SPACE_RETURN.value
     , MessageKind.SEND_FIELD_ALLOC_NOTIFICATION.value
     , MessageKind.SEND_VERSION_STATE_PATH.value
     , MessageKind.SEND_VERSION_STATE_INIT.value
     , MessageKind.SEND_VERSION_STATE_REQUEST.value
     , MessageKind.SEND_VERSION_STATE_RESPONSE.value
     , MessageKind.SEND_INSTANCE_REQUEST.value
     , MessageKind.SEND_INSTANCE_RESPONSE.value
     , MessageKind.SEND_GC_PRIORITY_UPDATE.value
     , MessageKind.SEND_SHUTDOWN_NOTIFICATION.value
     , MessageKind.SEND_SHUTDOWN_RESPONSE.value ]).Nodup :=
  ⟨rfl, fun k => by cases k <;> decide, by decide⟩

/-- C10: the HLR_TASK_DESCRIPTIONS table has exactly HLR_LAST_TASK_ID
entries, every HLRTaskID value is strictly below HLR_LAST_TASK_ID, and
indexing the table by any valid runtime task ID is in bounds and yields a
non-null (nonempty) name. -/
theorem C10_task_description_table :
    hlrTaskDescriptions.length = HLR_LAST_TASK_ID ∧
    (∀ t : HLRTaskID, t.value < HLR_LAST_TASK_ID) ∧
    (∀ i, i < HLR_LAST_TASK_ID →
      (hlrTaskDescriptions[i]?).isSome = true ∧
        (hlrTaskDescriptions[i]?).getD "" ≠ "") :=
  ⟨by decide, by decide, by decide⟩

/-- C10 witness: HLR_SEND_VERSION_STATE_TASK_ID has value 34 and indexing
the description table there is in bounds with a nonempty name. -/
theorem C10_task_description_table_witness :
    (34 : Nat) < HLR_LAST_TASK_ID ∧
    ((hlrTaskDescriptions[34]?).isSome = true ∧
      (hlrTaskDescriptions[34]?).getD "" ≠ "") :=
  ⟨by decide, C10_task_description_table.2.2 34 (by decide)⟩

/-- C6: serializing then deserializing a FieldMask or a VersionState wire
record yields a bit-for-bit equal value; wrap then unwrap of a tree-node
identity (LogicalRegion) restores it, and each wrap/unwrap pair, including
the NEW_OPAQUE_WRAPPER handles and ptr_t, is a bijective round trip. -/
theorem C6_serialization_round_trip :
    (∀ r : LogicalRegion,
      CObjectWrapper.unwrap_logical_region
        (CObjectWrapper.wrap_logical_region r) = r) ∧
    (∀ r_c : legion_logical_region_t,
      CObjectWrapper.wrap_logical_region
        (CObjectWrapper.unwrap_logical_region r_c) = r_c) ∧
    (∀ p : Nat,
      CObjectWrapper.unwrap_handle (CObjectWrapper.wrap_handle p) = p) ∧
    (∀ hd : legion_opaque_handle_t,
      CObjectWrapper.wrap_handle (CObjectWrapper.unwrap_handle hd) = hd) ∧
    (∀ p : ptr_t, CObjectWrapper.unwrap_ptr (CObjectWrapper.wrap_ptr p) = p) ∧
    (∀ m : FieldMask, m.wf →
      deserializeFieldMask (serializeFieldMask m) = some m) ∧
    (∀ r : VersionStateWire, r.wf →
      deserializeVersionState (serializeVersionState r) = some r) := by
  refine ⟨fun r => rfl, fun r_c => rfl, fun p => rfl, fun hd => rfl,
    fun p => rfl, fun m hm => ?_, fun r hr => ?_⟩
  · unfold serializeFieldMask deserializeFieldMask
    rw [if_pos ⟨hm.1, hm.2⟩]
  · obtain ⟨ht, hn, hv, hmask, hpay⟩ := hr
    have htake : ∀ (l₁ l₂ : List Nat), l₁.length = FM_WORDS →
        (l₁ ++ l₂).take FM_WORDS = l₁ := by
      intro l₁ l₂ h; rw [← h, List.take_left]
    have hdrop : ∀ (l₁ l₂ : List Nat), l₁.length = FM_WORDS →
        (l₁ ++ l₂).drop FM_WORDS = l₂ := by
      intro l₁ l₂ h; rw [← h, List.drop_left]
    have hfm : deserializeFieldMask r.mask.words = some r.mask := by
      unfold deserializeFieldMask
      rw [if_pos ⟨hmask.1, hmask.2⟩]
    simp only [serializeVersionState, serializeFieldMask,
      deserializeVersionState]
    rw [if_pos ⟨ht, hn, hv⟩,
      htake r.mask.words (r.payload.length :: r.payload) hmask.1,
      hdrop r.mask.words (r.payload.length :: r.payload) hmask.1, hfm]
    show (if r.payload.length = r.payload.length ∧ ∀ b ∈ r.payload, b < 2 ^ 8
      then some { tree_id := r.tree_id, node_id := r.node_id,
                  version := r.version, mask := r.mask, payload := r.payload }
      else none) = some r
    rw [if_pos ⟨rfl, hpay⟩]

/-- C6 witness: the round trips evaluated on a concrete field mask and a
concrete VersionState wire record. -/
theorem C6_serialization_round_trip_witness :
    deserializeFieldMask
      (serializeFieldMask { words := [1, 2, 3, 4, 5, 6, 7, 8] }) =
      some { words := [1, 2, 3, 4, 5, 6, 7, 8] } ∧
    deserializeVersionState (serializeVersionState
      { tree_id := 1, node_id := 2, version := 3,
        mask := { words := [1, 2, 3, 4, 5, 6, 7, 8] }, payload := [9, 10] }) =
      some { tree_id := 1, node_id := 2, version := 3,
             mask := { words := [1, 2, 3, 4, 5, 6, 7, 8] },
             payload := [9, 10] } :=
  ⟨C6_serialization_round_trip.2.2.2.2.2.1
      { words := [1, 2, 3, 4, 5, 6, 7, 8] } (by decide),
   C6_serialization_round_trip.2.2.2.2.2.2
      { tree_id := 1, node_id := 2, version := 3,
        mask := { words := [1, 2, 3, 4, 5, 6, 7, 8] }, payload := [9, 10] }
      (by decide)⟩

/-- C1: on the same tree node, a prior user whose field mask is disjoint
from the new user's mask generates no dependence edge, for any privilege
and coherence on either side; and every generated edge covers exactly the
overlapping field subset of the two masks, never the whole mask. -/
theorem C1_disjoint_fields_no_dependence :
    (∀ (prior : List LogicalUser) (u p : LogicalUser), p ∈ prior →
      Nat.land p.mask u.mask = 0 →
      ∀ f, ({ prev := p, fields := f } : DependenceEdge) ∉
        recordDependences prior u) ∧
    (∀ (prior : List LogicalUser) (u : LogicalUser) (e : DependenceEdge),
      e ∈ recordDependences prior u →
      e.fields = Nat.land e.prev.mask u.mask ∧ e.fields ≠ 0) := by
  constructor
  · intro prior u p _ hdisj f hin
    rw [recordDependences, List.mem_filterMap] at hin
    obtain ⟨q, _, hsome⟩ := hin
    by_cases h0 : Nat.land q.mask u.mask = 0
    · simp [h0] at hsome
    · by_cases hd : dependsOn q u
      · simp only [h0, if_false, hd, if_true, Option.some.injEq,
          DependenceEdge.mk.injEq] at hsome
        exact h0 (hsome.1 ▸ hdisj)
      · simp [h0, hd] at hsome
  · intro prior u e hin
    rw [recordDependences, List.mem_filterMap] at hin
    obtain ⟨q, _, hsome⟩ := hin
    by_cases h0 : Nat.land q.mask u.mask = 0
    · simp [h0] at hsome
    · by_cases hd : dependsOn q u
      · simp only [h0, if_false, hd, if_true, Option.some.injEq] at hsome
        subst hsome
        exact ⟨rfl, h0⟩
      · simp [h0, hd] at hsome

/-- C1 witness: a prior read-write user on fields {0} and a new read-write
user on fields {1} of the same node generate no dependence edge. -/
theorem C1_disjoint_fields_no_dependence_witness :
    ({ prev := { op := 1, privilege := .READ_WRITE, coherence := .EXCLUSIVE,
                 mask := 1 },
       fields := 3 } : DependenceEdge) ∉
      recordDependences
        [{ op := 1, privilege := .READ_WRITE, coherence := .EXCLUSIVE,
           mask := 1 }]
        { op := 2, privilege := .READ_WRITE, coherence := .EXCLUSIVE,
          mask := 2 } :=
  C1_disjoint_fields_no_dependence.1
    [{ op := 1, privilege := .READ_WRITE, coherence := .EXCLUSIVE, mask := 1 }]
    { op := 2, privilege := .READ_WRITE, coherence := .EXCLUSIVE, mask := 2 }
    { op := 1, privilege := .READ_WRITE, coherence := .EXCLUSIVE, mask := 1 }
    (List.mem_singleton.mpr rfl) (by decide) 3

/-- A single operation never lowers any (node, field) version. -/
theorem applyVersionOp_le (st : VersionMap) (o : VersionOp) (n f : Nat) :
    st n f ≤ applyVersionOp st o n f := by
  unfold applyVersionOp
  split <;> omega

/-- A sequence of operations never lowers any (node, field) version. -/
theorem runVersionOps_le (ops : List VersionOp) (st : VersionMap)
    (n f : Nat) : st n f ≤ runVersionOps st ops n f := by
  induction ops generalizing st with
  | nil => exact le_refl _
  | cons o rest ih =>
    exact le_trans (applyVersionOp_le st o n f) (ih (applyVersionOp st o))

/-- Every version recorded at a write later in the sequence exceeds the
version at the start of the sequence. -/
theorem recordedWriteVersions_gt (ops : List VersionOp) (st : VersionMap)
    (n f : Nat) : ∀ x ∈ recordedWriteVersions st ops n f, st n f < x := by
  induction ops generalizing st with
  | nil => intro x hx; simp [recordedWriteVersions] at hx
  | cons o rest ih =>
    intro x hx
    rw [recordedWriteVersions] at hx
    by_cases hw : o.write = true ∧ n = o.node ∧ Nat.testBit o.mask f = true
    · rw [if_pos (by simpa using hw)] at hx
      have hbump : applyVersionOp st o n f = st n f + 1 := by
        unfold applyVersionOp
        rw [if_pos (by simpa using hw)]
      rcases List.mem_cons.mp hx with h | h
      · omega
      · have := ih (applyVersionOp st o) x h
        omega
    · rw [if_neg (by simpa using hw)] at hx
      have := ih (applyVersionOp st o) x hx
      calc st n f ≤ applyVersionOp st o n f := applyVersionOp_le st o n f
        _ < x := this

/-- C2: per (node, field), versions are monotonically non-decreasing over
any operation sequence, every write covering the field strictly increases
the version there, and the versions recorded across any sequence of writes
are strictly increasing. -/
theorem C2_version_numbers_monotone :
    (∀ (st : VersionMap) (ops : List VersionOp) (n f : Nat),
      st n f ≤ runVersionOps st ops n f) ∧
    (∀ (st : VersionMap) (o : VersionOp) (n f : Nat),
      o.write = true → n = o.node → Nat.testBit o.mask f = true →
      st n f < applyVersionOp st o n f) ∧
    (∀ (st : VersionMap) (ops : List VersionOp) (n f : Nat),
      List.Chain' (· < ·) (recordedWriteVersions st ops n f)) := by
  refine ⟨fun st ops n f => runVersionOps_le ops st n f,
    fun st o n f hw hn hb => ?_, fun st ops n f => ?_⟩
  · unfold applyVersionOp
    rw [if_pos ⟨hw, hn, hb⟩]
    omega
  · induction ops generalizing st with
    | nil => simp [recordedWriteVersions]
    | cons o rest ih =>
      rw [recordedWriteVersions]
      by_cases hw : o.write = true ∧ n = o.node ∧ Nat.testBit o.mask f = true
      · rw [if_pos (by simpa using hw)]
        rw [List.chain'_cons']
        exact ⟨fun y hy => recordedWriteVersions_gt rest (applyVersionOp st o)
            n f y (List.mem_of_mem_head? hy),
          ih (applyVersionOp st o)⟩
      · rw [if_neg (by simpa using hw)]
        exact ih (applyVersionOp st o)

/-- C2 witness: two writes to field 0 of node 0 record versions 1 then 2,
strictly increasing, and the single-write strict bump evaluated at zero
state. -/
theorem C2_version_numbers_monotone_witness :
    ((fun _ _ => 0 : VersionMap) 0 0 <
      applyVersionOp (fun _ _ => 0) { node := 0, mask := 1, write := true }
        0 0) ∧
    List.Chain' (· < ·)
      (recordedWriteVersions (fun _ _ => 0)
        [{ node := 0, mask := 1, write := true },
         { node := 0, mask := 1, write := true }] 0 0) :=
  ⟨C2_version_numbers_monotone.2.1 (fun _ _ => 0)
      { node := 0, mask := 1, write := true } 0 0 rfl rfl (by decide),
   C2_version_numbers_monotone.2.2 (fun _ _ => 0)
      [{ node := 0, mask := 1, write := true },
       { node := 0, mask := 1, write := true }] 0 0⟩

/-- The DistributedCollectable safety invariant: in-flight messages naming
the distributed ID are covered by resource references, and a destroyed
object has no message in flight naming it. One protocol step preserves it. -/
theorem dcStep_invariant (s s' : DCState) (hs : DCStep s s')
    (ih : s.pending ≤ s.resourceRefs ∧ (s.deleted = true → s.pending = 0)) :
    s'.pending ≤ s'.resourceRefs ∧ (s'.deleted = true → s'.pending = 0) := by
  cases hs with
  | addValid h => exact ih
  | removeValid n h hn => exact ih
  | addResource h => exact ⟨le_trans ih.1 (Nat.le_succ _), ih.2⟩
  | removeResource n h hn hp => exact ⟨hp, ih.2⟩
  | sendMessage h =>
    refine ⟨Nat.succ_le_succ ih.1, fun hd => ?_⟩
    have hd' : s.deleted = true := hd
    rw [h] at hd'
    exact Bool.noConfusion hd'
  | deliverMessage p n hp hn =>
    constructor
    · show p ≤ n
      have h1 := ih.1
      omega
    · intro hd
      have hd' : s.deleted = true := hd
      have h0 := ih.2 hd'
      show p = 0
      omega
  | epochBoundary h =>
    refine ⟨ih.1, fun hd => ?_⟩
    have hd' : (s.zeroPrevEpoch &&
        (s.validRefs == 0 && s.resourceRefs == 0)) = true := hd
    simp only [Bool.and_eq_true, beq_iff_eq] at hd'
    have h1 := ih.1
    show s.pending = 0
    omega
  | droppedUpdate h => exact ih

/-- The DistributedCollectable safety invariant holds in every state the
protocol can reach from creation. -/
theorem dcReachable_invariant (s : DCState) (hr : DCReachable s) :
    s.pending ≤ s.resourceRefs ∧ (s.deleted = true → s.pending = 0) := by
  induction hr with
  | init s h =>
    exact ⟨by rw [h.1]; exact Nat.zero_le _, fun _ => h.1⟩
  | step s s' _ hs ih => exact dcStep_invariant s s' hs ih

/-- A step that destroys a live DistributedCollectable can only be an epoch
boundary observing both counts at zero with both counts already zero at the
previous boundary. -/
theorem dcStep_delete_needs_two_zero_epochs (s s' : DCState)
    (hs : DCStep s s') (hdel : s.deleted = false)
    (hdel' : s'.deleted = true) :
    s.zeroPrevEpoch = true ∧ s.validRefs = 0 ∧ s.resourceRefs = 0 := by
  cases hs with
  | addValid h =>
    have hx : s.deleted = true := hdel'
    rw [hdel] at hx
    exact Bool.noConfusion hx
  | removeValid n h hn =>
    have hx : s.deleted = true := hdel'
    rw [hdel] at hx
    exact Bool.noConfusion hx
  | addResource h =>
    have hx : s.deleted = true := hdel'
    rw [hdel] at hx
    exact Bool.noConfusion hx
  | removeResource n h hn hp =>
    have hx : s.deleted = true := hdel'
    rw [hdel] at hx
    exact Bool.noConfusion hx
  | sendMessage h =>
    have hx : s.deleted = true := hdel'
    rw [hdel] at hx
    exact Bool.noConfusion hx
  | deliverMessage p n hp hn =>
    have hx : s.deleted = true := hdel'
    rw [hdel] at hx
    exact Bool.noConfusion hx
  | epochBoundary h =>
    have hd' : (s.zeroPrevEpoch &&
        (s.validRefs == 0 && s.resourceRefs == 0)) = true := hdel'
    simp only [Bool.and_eq_true, beq_iff_eq] at hd'
    exact ⟨hd'.1, hd'.2.1, hd'.2.2⟩
  | droppedUpdate h =>
    rw [hdel] at h
    exact Bool.noConfusion h

/-- C4: a DistributedCollectable is destroyed by its owner only by an epoch
boundary that observes both reference counts at zero when they were already
both zero at the previous epoch boundary; its resource-reference count is
never zero while a message naming its distributed ID is pending, and no
message naming it is pending (so none can access it) once it is destroyed. -/
theorem C4_gc_epoch_safety :
    (∀ s s' : DCState, DCReachable s → DCStep s s' →
      s.deleted = false → s'.deleted = true →
      s.zeroPrevEpoch = true ∧ s.validRefs = 0 ∧ s.resourceRefs = 0) ∧
    (∀ s : DCState, DCReachable s → 0 < s.pending → 0 < s.resourceRefs) ∧
    (∀ s : DCState, DCReachable s → s.deleted = true → s.pending = 0) := by
  refine ⟨fun s s' _ hs hdel hdel' =>
      dcStep_delete_needs_two_zero_epochs s s' hs hdel hdel',
    fun s hr hp => ?_, fun s hr hd => (dcReachable_invariant s hr).2 hd⟩
  have h1 := (dcReachable_invariant s hr).1
  omega

/-- C4 witness: after creation and one message send the collectable is
reachable with one pending message and a positive resource count. -/
theorem C4_gc_epoch_safety_witness :
    0 < ({ validRefs := 0, resourceRefs := 1, pending := 1,
           zeroPrevEpoch := false, deleted := false } : DCState).resourceRefs :=
  C4_gc_epoch_safety.2.1
    { validRefs := 0, resourceRefs := 1, pending := 1,
      zeroPrevEpoch := false, deleted := false }
    (DCReachable.step
      { validRefs := 0, resourceRefs := 0, pending := 0,
        zeroPrevEpoch := false, deleted := false }
      { validRefs := 0, resourceRefs := 1, pending := 1,
        zeroPrevEpoch := false, deleted := false }
      (DCReachable.init _ ⟨rfl, rfl, rfl⟩)
      (DCStep.sendMessage
        { validRefs := 0, resourceRefs := 0, pending := 0,
          zeroPrevEpoch := false, deleted := false } rfl))
    (by decide)

/-- One messaging event preserves the per-stream ordering invariant. -/
theorem mmStep_inv (s : MMState) (e : MMEvent) (h : mmInv s) :
    mmInv (mmStep s e) := by
  cases e with
  | send c src dst m =>
    intro k'
    by_cases hk : k' = (c, src, dst)
    · simp only [mmStep, if_pos hk]
      rw [h k', List.append_assoc]
    · simp only [mmStep, if_neg hk]
      exact h k'
  | deliver c src dst =>
    intro k'
    cases hq : s.queue (c, src, dst) with
    | nil =>
      simp only [mmStep, hq]
      exact h k'
    | cons m rest =>
      simp only [mmStep, hq]
      by_cases hk : k' = (c, src, dst)
      · rw [if_pos hk, if_pos hk, h k', hk, hq, List.append_assoc,
          List.singleton_append]
      · rw [if_neg hk, if_neg hk]
        exact h k'

/-- The per-stream ordering invariant holds after any event sequence. -/
theorem mmRun_inv (es : List MMEvent) (s : MMState) (h : mmInv s) :
    mmInv (mmRun s es) := by
  induction es generalizing s with
  | nil => exact h
  | cons e rest ih => exact ih (mmStep s e) (mmStep_inv s e h)

/-- C7: the virtual channels are the fixed set of 11 `VirtualChannelKind`
enumerators; the listed concerns (structural updates, version traffic,
view/instance traffic, mapper traffic, shutdown) are each assigned their
own pairwise-distinct channel; and on every channel, for every ordered pair
of address spaces, the messages sent are exactly the messages delivered
followed by those still in flight — delivery is in send order. -/
theorem C7_virtual_channel_ordering :
    Fintype.card VirtualChannelKind = maxNumVirtualChannels ∧
    (List.map channelOfConcern
      [ChannelConcern.structuralUpdates, ChannelConcern.versionTraffic,
       ChannelConcern.viewInstanceTraffic, ChannelConcern.mapperTraffic,
       ChannelConcern.shutdown]).Nodup ∧
    (∀ (es : List MMEvent) (k : ChannelKey),
      (mmRun mmInit es).sentLog k =
        (mmRun mmInit es).deliveredLog k ++ (mmRun mmInit es).queue k) :=
  ⟨by decide, by decide,
   fun es k => mmRun_inv es mmInit (fun _ => rfl) k⟩

end Legion
